import Mathlib

/-!
Shallow embedding of `src/server.js` (Express + pg backend for an
urban-tree-inventory application) and verification of its specification.

Modelling conventions:
* JavaScript request-body values are modelled by `JSVal` (undefined, null,
  number, string) with JavaScript truthiness (`0`, `""`, `null`, `undefined`
  are falsy).  Plain string fields that the handlers only test with `!x`
  are modelled as `String`, with `""` standing for both the empty string
  and an absent field (both are falsy in JS).
* Database ids coming from request bodies are modelled as `Nat`, with `0`
  falsy (Postgres serials start at 1).
* Each table is a Lean list of rows; a handler is a pure function from the
  table state and the request to a result structure carrying the HTTP
  status, the response payload and the new table state.
* The species query builder is embedded as a pure function returning the
  SQL text and the positional-parameter list, mirroring the accumulator
  code of `GET /api/especies` statement by statement (SQL text whitespace
  is normalised to single spaces).
* For the transaction-discipline claim, the two multi-statement handlers
  are additionally embedded as trace-producing functions: each run emits
  the sequence of connection-level events (connect, BEGIN, data queries,
  COMMIT/ROLLBACK, release), parametrised by an oracle saying which data
  statements throw.
-/

namespace GestaoInformacao

/-- Subset of JavaScript values appearing in request bodies. -/
inductive JSVal where
  | undef
  | null
  | num (n : Int)
  | str (s : String)
  deriving DecidableEq, Repr

/-- JavaScript truthiness: `undefined`, `null`, `0` and `""` are falsy. -/
def JSVal.truthy : JSVal → Bool
  | .undef => false
  | .null => false
  | .num n => n != 0
  | .str s => s != ""

/-- JavaScript `x || null`, as used for the optional plant fields. -/
def JSVal.orNull (v : JSVal) : JSVal :=
  if v.truthy then v else .null

/-- JavaScript `s.toLowerCase()` (ASCII case folding, character by
character). -/
def jsToLower (s : String) : String :=
  String.mk (s.data.map Char.toLower)

/-- A row of the `users` table. -/
structure User where
  id : Nat
  username : String
  password : String
  deriving DecidableEq, Repr

/-- Result of the registration handler: HTTP status, success flag, the
`users` table after the request, and the returned `{id, username}` pair. -/
structure RegisterResult where
  status : Nat
  success : Bool
  users : List User
  user : Option (Nat × String)
  deriving DecidableEq, Repr

/-- `POST /api/auth/register` (src/server.js:67-116): reject missing
fields (400); inside a transaction, look up the lowercased username and
reject with 400 if taken; otherwise insert `(lowercased username,
password)` and return 201 with the new row's id and username.
`nextId` models the store-generated serial id. -/
def register (users : List User) (nextId : Nat) (username password : String) :
    RegisterResult :=
  if username = "" ∨ password = "" then
    ⟨400, false, users, none⟩
  else if users.any (fun u => u.username == jsToLower username) then
    ⟨400, false, users, none⟩
  else
    ⟨201, true, users ++ [⟨nextId, jsToLower username, password⟩],
      some (nextId, jsToLower username)⟩

/-- Result of the login handler. -/
structure LoginResult where
  status : Nat
  success : Bool
  user : Option (Nat × String)
  deriving DecidableEq, Repr

/-- `POST /api/auth/login` (src/server.js:119-175): reject missing fields
(400); look up the first row with the lowercased username (404 if none);
compare the supplied password to the stored one by exact string equality
(401 on mismatch); on match return 200 with `{id, username}`. -/
def login (users : List User) (username password : String) : LoginResult :=
  if username = "" ∨ password = "" then
    ⟨400, false, none⟩
  else
    match users.find? (fun u => u.username == jsToLower username) with
    | none => ⟨404, false, none⟩
    | some u =>
      if password ≠ u.password then
        ⟨401, false, none⟩
      else
        ⟨200, true, some (u.id, u.username)⟩

/-- Stored usernames are lowercase: the invariant the system maintains
(registration lowercases before insert, spec §3). -/
def usersLowercase (users : List User) : Prop :=
  ∀ u ∈ users, jsToLower u.username = u.username

/-- C1: a registration whose username case-insensitively collides with an
existing user's gets status 400 and leaves the `users` table unchanged. -/
theorem register_conflict_rejected (users : List User) (nextId : Nat)
    (username password : String)
    (hlow : usersLowercase users)
    (htaken : ∃ u ∈ users, jsToLower u.username = jsToLower username) :
    (register users nextId username password).status = 400 ∧
      (register users nextId username password).users = users := by
  obtain ⟨u, hu, hname⟩ := htaken
  have hmem : users.any (fun u => u.username == jsToLower username) = true := by
    rw [List.any_eq_true]
    have heq : u.username = jsToLower username := (hlow u hu).symm.trans hname
    exact ⟨u, hu, by simp [heq]⟩
  unfold register
  by_cases hempty : username = "" ∨ password = ""
  · simp [hempty]
  · simp [hempty, hmem]

/-- Witness for C1 at a concrete input. -/
theorem register_conflict_rejected_witness :
    (register [⟨1, "alice", "pw"⟩] 2 "Alice" "secret").status = 400 ∧
      (register [⟨1, "alice", "pw"⟩] 2 "Alice" "secret").users =
        [⟨1, "alice", "pw"⟩] :=
  register_conflict_rejected [⟨1, "alice", "pw"⟩] 2 "Alice" "secret"
    (fun u hu => by rw [List.mem_singleton] at hu; subst hu; decide)
    ⟨⟨1, "alice", "pw"⟩, by decide, by decide⟩

/-- C2: with both fields present, login returns 404 when no row matches
the lowercased username, 401 when the matched row's stored password
differs from the supplied one, and 200 with the stored row's id and
username when both match. -/
theorem login_cases (users : List User) (username password : String)
    (hu : username ≠ "") (hp : password ≠ "") :
    ((∀ u ∈ users, u.username ≠ jsToLower username) →
        (login users username password).status = 404) ∧
    (∀ u, users.find? (fun u => u.username == jsToLower username) = some u →
        password ≠ u.password →
        (login users username password).status = 401) ∧
    (∀ u, users.find? (fun u => u.username == jsToLower username) = some u →
        password = u.password →
        (login users username password).status = 200 ∧
          (login users username password).success = true ∧
          (login users username password).user = some (u.id, u.username)) := by
  refine ⟨?_, ?_, ?_⟩
  · intro hnone
    have hfind : users.find? (fun u => u.username == jsToLower username) = none := by
      rw [List.find?_eq_none]
      intro u hu'
      simp only [beq_iff_eq]
      exact hnone u hu'
    simp [login, hu, hp, hfind]
  · intro u hfind hpw
    simp [login, hu, hp, hfind, hpw]
  · intro u hfind hpw
    subst hpw
    simp [login, hu, hp, hfind]

/-- Witness for C2 at concrete inputs: unknown user, wrong password,
and correct credentials. -/
theorem login_cases_witness :
    (login [⟨1, "bob", "pw"⟩] "carol" "x").status = 404 ∧
      (login [⟨1, "bob", "pw"⟩] "Bob" "wrong").status = 401 ∧
      (login [⟨1, "bob", "pw"⟩] "Bob" "pw").status = 200 ∧
      (login [⟨1, "bob", "pw"⟩] "Bob" "pw").user = some (1, "bob") := by
  refine ⟨?_, ?_, ?_, ?_⟩
  · exact (login_cases [⟨1, "bob", "pw"⟩] "carol" "x" (by decide) (by decide)).1
      (by decide)
  · exact (login_cases [⟨1, "bob", "pw"⟩] "Bob" "wrong" (by decide)
      (by decide)).2.1 ⟨1, "bob", "pw"⟩ (by decide) (by decide)
  · exact ((login_cases [⟨1, "bob", "pw"⟩] "Bob" "pw" (by decide)
      (by decide)).2.2 ⟨1, "bob", "pw"⟩ (by decide) (by decide)).1
  · exact ((login_cases [⟨1, "bob", "pw"⟩] "Bob" "pw" (by decide)
      (by decide)).2.2 ⟨1, "bob", "pw"⟩ (by decide) (by decide)).2.2

/-- A plant-creation request body (`POST /api/plants`): the eight fields
destructured from `req.body`, each an arbitrary JS value. -/
structure PlantReq where
  nome_cientifico : JSVal
  nome_popular : JSVal
  detalhes : JSVal
  data_plantio : JSVal
  fonte : JSVal
  usuario_id : JSVal
  latitude : JSVal
  longitude : JSVal
  deriving DecidableEq, Repr

/-- A row of the `plantas` table, as returned by `RETURNING *` (the
store-generated `created_at` timestamp is outside the claims and omitted). -/
structure PlantRow where
  id : Nat
  nome_cientifico : JSVal
  nome_popular : JSVal
  detalhes : JSVal
  data_plantio : JSVal
  fonte : JSVal
  usuario_id : JSVal
  latitude : JSVal
  longitude : JSVal
  deriving DecidableEq, Repr

/-- Result of the plant-creation handler. -/
structure CreatePlantResult where
  status : Nat
  message : String
  plants : List PlantRow
  plant : Option PlantRow
  deriving DecidableEq, Repr

/-- `POST /api/plants` (src/server.js:222-296): 400 if both name fields are
falsy; 400 if either coordinate is falsy; otherwise insert
`(nome_cientifico || null, ..., usuario_id || null, latitude, longitude)`
and return 201 with the inserted row. -/
def createPlant (plants : List PlantRow) (nextId : Nat) (r : PlantReq) :
    CreatePlantResult :=
  if !r.nome_cientifico.truthy && !r.nome_popular.truthy then
    ⟨400, "Pelo menos o nome científico ou popular deve ser fornecido",
      plants, none⟩
  else if !r.latitude.truthy || !r.longitude.truthy then
    ⟨400, "Coordenadas geográficas são obrigatórias", plants, none⟩
  else
    let row : PlantRow :=
      ⟨nextId, r.nome_cientifico.orNull, r.nome_popular.orNull,
        r.detalhes.orNull, r.data_plantio.orNull, r.fonte.orNull,
        r.usuario_id.orNull, r.latitude, r.longitude⟩
    ⟨201, "Planta cadastrada com sucesso", plants ++ [row], some row⟩

/-- A plant request that submits `detalhes` as the empty string. -/
def plantReqEmptyDetalhes : PlantReq :=
  ⟨.str "Tabebuia aurea", .undef, .str "", .undef, .undef, .undef,
    .num 1, .num 2⟩

/-- C3 counterexample: a request with one name field, both coordinates
present, and `detalhes` submitted as `""` gets a 201, but the returned row
stores `null` for `detalhes`, not the submitted value — `x || null` maps
every falsy submitted value to `null`. -/
theorem createPlant_submitted_falsy_field_nulled :
    (createPlant [] 1 plantReqEmptyDetalhes).status = 201 ∧
      plantReqEmptyDetalhes.detalhes ≠ JSVal.undef ∧
      (createPlant [] 1 plantReqEmptyDetalhes).plant.map PlantRow.detalhes =
        some JSVal.null ∧
      JSVal.null ≠ plantReqEmptyDetalhes.detalhes := by
  decide

/-- C3 amended: a request with both name fields falsy is rejected with 400
and no insert, regardless of the coordinates; a request with at least one
truthy name field and both coordinates truthy gets a 201 whose row stores,
for each optional field, the submitted value if it is truthy and `null`
otherwise (in particular a submitted `""` or `0` becomes `null`), and the
coordinates verbatim. -/
theorem createPlant_spec (plants : List PlantRow) (nextId : Nat)
    (r : PlantReq) :
    (r.nome_cientifico.truthy = false → r.nome_popular.truthy = false →
      (createPlant plants nextId r).status = 400 ∧
        (createPlant plants nextId r).plants = plants) ∧
    ((r.nome_cientifico.truthy = true ∨ r.nome_popular.truthy = true) →
      r.latitude.truthy = true → r.longitude.truthy = true →
      (createPlant plants nextId r).status = 201 ∧
        (createPlant plants nextId r).plant =
          some ⟨nextId,
            (if r.nome_cientifico.truthy then r.nome_cientifico else .null),
            (if r.nome_popular.truthy then r.nome_popular else .null),
            (if r.detalhes.truthy then r.detalhes else .null),
            (if r.data_plantio.truthy then r.data_plantio else .null),
            (if r.fonte.truthy then r.fonte else .null),
            (if r.usuario_id.truthy then r.usuario_id else .null),
            r.latitude, r.longitude⟩ ∧
        (createPlant plants nextId r).plants =
          plants ++ ((createPlant plants nextId r).plant).toList) := by
  constructor
  · intro hnc hnp
    simp [createPlant, hnc, hnp]
  · intro hname hlat hlong
    have hok : (!r.nome_cientifico.truthy && !r.nome_popular.truthy) = false := by
      rcases hname with h | h <;> simp [h]
    simp [createPlant, hok, hlat, hlong, JSVal.orNull]

/-- Witness for the amended C3 at concrete inputs: an all-falsy-names
request is rejected; a well-formed request is inserted with `null` for the
unsubmitted optional fields. -/
theorem createPlant_spec_witness :
    ((createPlant [] 1 ⟨.undef, .str "", .str "x", .undef, .undef, .undef,
        .num 1, .num 2⟩).status = 400 ∧
      (createPlant [] 1 ⟨.undef, .str "", .str "x", .undef, .undef, .undef,
        .num 1, .num 2⟩).plants = []) ∧
    ((createPlant [] 1 ⟨.str "Ipe", .undef, .undef, .undef, .undef, .undef,
        .num 3, .num 4⟩).status = 201 ∧
      (createPlant [] 1 ⟨.str "Ipe", .undef, .undef, .undef, .undef, .undef,
        .num 3, .num 4⟩).plant =
        some ⟨1, .str "Ipe", .null, .null, .null, .null, .null,
          .num 3, .num 4⟩) := by
  constructor
  · exact (createPlant_spec [] 1 ⟨.undef, .str "", .str "x", .undef, .undef,
      .undef, .num 1, .num 2⟩).1 (by decide) (by decide)
  · have h := (createPlant_spec [] 1 ⟨.str "Ipe", .undef, .undef, .undef,
      .undef, .undef, .num 3, .num 4⟩).2 (Or.inl (by decide)) (by decide)
      (by decide)
    exact ⟨h.1, by rw [h.2.1]; decide⟩

/-- C10: coordinate presence is tested by JS truthiness, so a request
whose latitude or longitude is `0` or `""` is rejected with 400
("Coordenadas geográficas são obrigatórias") and nothing is inserted,
provided the name validation passes. -/
theorem createPlant_zero_coordinate_rejected (plants : List PlantRow)
    (nextId : Nat) (r : PlantReq)
    (hname : r.nome_cientifico.truthy = true ∨ r.nome_popular.truthy = true)
    (hzero : r.latitude = .num 0 ∨ r.latitude = .str "" ∨
      r.longitude = .num 0 ∨ r.longitude = .str "") :
    (createPlant plants nextId r).status = 400 ∧
      (createPlant plants nextId r).message =
        "Coordenadas geográficas são obrigatórias" ∧
      (createPlant plants nextId r).plants = plants := by
  have hok : (!r.nome_cientifico.truthy && !r.nome_popular.truthy) = false := by
    rcases hname with h | h <;> simp [h]
  have hfalsy : (!r.latitude.truthy || !r.longitude.truthy) = true := by
    rcases hzero with h | h | h | h <;> simp [h, JSVal.truthy]
  simp [createPlant, hok, hfalsy]

/-- Witness for C10 at a concrete input: latitude 0 with a valid name. -/
theorem createPlant_zero_coordinate_rejected_witness :
    (createPlant [] 1 ⟨.str "Ipe", .undef, .undef, .undef, .undef, .undef,
        .num 0, .num 4⟩).status = 400 ∧
      (createPlant [] 1 ⟨.str "Ipe", .undef, .undef, .undef, .undef, .undef,
        .num 0, .num 4⟩).message =
        "Coordenadas geográficas são obrigatórias" ∧
      (createPlant [] 1 ⟨.str "Ipe", .undef, .undef, .undef, .undef, .undef,
        .num 0, .num 4⟩).plants = [] :=
  createPlant_zero_coordinate_rejected [] 1
    ⟨.str "Ipe", .undef, .undef, .undef, .undef, .undef, .num 0, .num 4⟩
    (Or.inl (by decide)) (Or.inl (by decide))

/-- A positional SQL placeholder, `$n`. -/
def placeholder (n : Nat) : String :=
  "$" ++ toString n

/-- The search condition pushed for a supplied `search` parameter
(src/server.js:375, 411): both ILIKE placeholders carry the same index. -/
def condSearch (n : Nat) : String :=
  "(nome_popular ILIKE " ++ placeholder n ++ " OR nome_cientifico ILIKE " ++
    placeholder n ++ ")"

/-- The condition pushed for a supplied `familia` parameter
(src/server.js:379). -/
def condFamilia (n : Nat) : String :=
  "familia = " ++ placeholder n

/-- The condition pushed for a supplied `rpa` parameter
(src/server.js:383, 415). -/
def condRpa (n : Nat) : String :=
  "rpa = " ++ placeholder n

/-- First SELECT of the species query, over `arvores_tombadas`
(src/server.js:355-369; whitespace normalised to single spaces). -/
def especiesBase1 : String :=
  "SELECT \x27arvore_tombada\x27 AS tipo, id, nome_cientifico, " ++
    "nome_popular, familia, latitude, longitude, NULL AS altura, " ++
    "NULL AS dap, rpa FROM arvores_tombadas WHERE 1=1"

/-- Second SELECT of the species query, over `censo_arboreo`, prefixed by
UNION ALL and filtered to non-null scientific names (src/server.js:391-406;
whitespace normalised). -/
def especiesBase2 : String :=
  " UNION ALL SELECT \x27censo\x27 AS tipo, id, nome_cientifico, " ++
    "nome_popular, NULL AS familia, y_wgs84 AS latitude, " ++
    "x_wgs84 AS longitude, altura, dap, rpa FROM censo_arboreo " ++
    "WHERE nome_cientifico IS NOT NULL"

/-- JavaScript `conditions.join(' AND ')`. -/
def joinAnd : List String → String
  | [] => ""
  | [c] => c
  | c :: cs => c ++ " AND " ++ joinAnd cs

/-- `if (conditions.length > 0) query += ' AND ' + conditions.join(' AND ')`
(src/server.js:387-389, 419-421). -/
def andClause (conditions : List String) : String :=
  if conditions.length > 0 then " AND " ++ joinAnd conditions else ""

/-- One `if (param) { conditions.push(cond($params.length+1)); params.push(value) }`
step of the builder, threading the `(conditions, params)` pair. -/
def pushIf (present : Bool) (mkCond : Nat → String) (value : String)
    (st : List String × List String) : List String × List String :=
  if present then (st.1 ++ [mkCond (st.2.length + 1)], st.2 ++ [value]) else st

/-- `GET /api/especies` query construction (src/server.js:351-425): build
the tombada SELECT with conditions for the supplied parameters in the
order search, familia, rpa; append the census SELECT; reset `conditions`
(keeping `params`) and reapply search and rpa; append the ORDER BY.
Returns the SQL text and the positional-parameter list.  A query parameter
is supplied iff it is non-empty (absent and `""` are both falsy in JS). -/
def buildEspeciesQuery (search familia rpa : String) :
    String × List String :=
  let st1 := pushIf (rpa != "") condRpa rpa
    (pushIf (familia != "") condFamilia familia
      (pushIf (search != "") condSearch ("%" ++ search ++ "%") ([], [])))
  let q1 := especiesBase1 ++ andClause st1.1 ++ especiesBase2
  let st2 := pushIf (rpa != "") condRpa rpa
    (pushIf (search != "") condSearch ("%" ++ search ++ "%") ([], st1.2))
  (q1 ++ andClause st2.1 ++ " ORDER BY nome_popular", st2.2)

/-- The species query as the specification describes it, with every
placeholder index computed arithmetically from which parameters are
supplied: first branch indices 1, nS+1, nS+nF+1 for search, familia, rpa;
second branch continues from the accumulated parameter count n1, with
search at n1+1 and rpa at n1+nS+1; the parameter list holds the values in
the same order; the text ends with ORDER BY nome_popular. -/
def especiesQuerySpec (search familia rpa : String) :
    String × List String :=
  let nS : Nat := if search = "" then 0 else 1
  let nF : Nat := if familia = "" then 0 else 1
  let nR : Nat := if rpa = "" then 0 else 1
  let conds1 : List String :=
    (if search = "" then [] else [condSearch 1]) ++
    (if familia = "" then [] else [condFamilia (nS + 1)]) ++
    (if rpa = "" then [] else [condRpa (nS + nF + 1)])
  let n1 := nS + nF + nR
  let conds2 : List String :=
    (if search = "" then [] else [condSearch (n1 + 1)]) ++
    (if rpa = "" then [] else [condRpa (n1 + nS + 1)])
  let text := especiesBase1 ++
    (if conds1.isEmpty then "" else " AND " ++ joinAnd conds1) ++
    especiesBase2 ++
    (if conds2.isEmpty then "" else " AND " ++ joinAnd conds2) ++
    " ORDER BY nome_popular"
  let params :=
    (if search = "" then [] else ["%" ++ search ++ "%"]) ++
    (if familia = "" then [] else [familia]) ++
    (if rpa = "" then [] else [rpa]) ++
    (if search = "" then [] else ["%" ++ search ++ "%"]) ++
    (if rpa = "" then [] else [rpa])
  (text, params)

/-- C4: for every combination of the optional inputs, the species query
builder produces exactly the SQL text and parameter list described by the
specification: per-branch conditions only for supplied parameters, in
order, with positional placeholders numbered by the running parameter
count, the census branch's indices continuing the accumulated list, and
the statement ending with ORDER BY nome_popular. -/
theorem buildEspeciesQuery_eq_spec (search familia rpa : String) :
    buildEspeciesQuery search familia rpa =
      especiesQuerySpec search familia rpa := by
  by_cases hs : search = "" <;> by_cases hf : familia = "" <;>
    by_cases hr : rpa = "" <;>
      simp [buildEspeciesQuery, especiesQuerySpec, pushIf, andClause,
        joinAnd, hs, hf, hr, String.append_assoc]

/-- C5: two species-search requests supplying the same subset of
parameters generate identical SQL text — the supplied values influence
only the parameter list, never the SQL string. -/
theorem buildEspeciesQuery_text_value_independent
    (search familia rpa search' familia' rpa' : String)
    (hs : search = "" ↔ search' = "")
    (hf : familia = "" ↔ familia' = "")
    (hr : rpa = "" ↔ rpa' = "") :
    (buildEspeciesQuery search familia rpa).1 =
      (buildEspeciesQuery search' familia' rpa').1 := by
  by_cases h1 : search = "" <;> by_cases h2 : familia = "" <;>
    by_cases h3 : rpa = "" <;>
      simp [buildEspeciesQuery, pushIf, andClause, joinAnd,
        h1, h2, h3, hs.mp, hf.mp, hr.mp,
        (fun h => (not_iff_not.mpr hs).mp h : search ≠ "" → search' ≠ ""),
        (fun h => (not_iff_not.mpr hf).mp h : familia ≠ "" → familia' ≠ ""),
        (fun h => (not_iff_not.mpr hr).mp h : rpa ≠ "" → rpa' ≠ "")]

/-- Witness for C5 at concrete inputs: same supplied subset
(search and rpa), different values, identical SQL text. -/
theorem buildEspeciesQuery_text_value_independent_witness :
    (buildEspeciesQuery "ipe" "" "3").1 =
      (buildEspeciesQuery "pau-brasil" "" "4").1 :=
  buildEspeciesQuery_text_value_independent "ipe" "" "3" "pau-brasil" "" "4"
    (by decide) (by decide) (by decide)

/-- A row of the `messages` table. -/
structure Message where
  id : Nat
  room_id : Nat
  sender_id : Nat
  content : String
  timestamp : Nat
  deriving DecidableEq, Repr

/-- The `ORDER BY timestamp DESC` comparison as a Bool-valued relation:
`a` may come before `b` iff `a` is at least as recent. -/
def tsDesc (a b : Message) : Bool :=
  b.timestamp ≤ a.timestamp

/-- `GET /api/rooms/:roomId/messages` (src/server.js:516-533): select the
room's messages ordered newest-first, `LIMIT limit` (default 50), then
`rows.reverse()` so the response is oldest-first. -/
def listMessages (msgs : List Message) (roomId : Nat) (limit : Nat := 50) :
    List Message :=
  (((msgs.filter (fun m => m.room_id == roomId)).mergeSort tsDesc).take
    limit).reverse

/-- `tsDesc` is transitive. -/
theorem tsDesc_trans (a b c : Message) :
    tsDesc a b → tsDesc b c → tsDesc a c := by
  simp only [tsDesc, decide_eq_true_eq]
  omega

/-- `tsDesc` is total. -/
theorem tsDesc_total (a b : Message) : tsDesc a b || tsDesc b a := by
  simp only [tsDesc, Bool.or_eq_true, decide_eq_true_eq]
  omega

/-- C6: listing a room's messages with limit `n` returns `min n (room
size)` messages, sorted oldest-first, and they are the most recent ones:
the room's messages split (up to permutation) into the returned ones and a
remainder no newer than any returned message. -/
theorem listMessages_most_recent_oldest_first (msgs : List Message)
    (roomId n : Nat) :
    List.Pairwise (fun a b => a.timestamp ≤ b.timestamp)
      (listMessages msgs roomId n) ∧
    (listMessages msgs roomId n).length =
      min n (msgs.filter (fun m => m.room_id == roomId)).length ∧
    ∃ rest : List Message,
      ((listMessages msgs roomId n).reverse ++ rest).Perm
        (msgs.filter (fun m => m.room_id == roomId)) ∧
      ∀ m ∈ rest, ∀ m2 ∈ listMessages msgs roomId n,
        m.timestamp ≤ m2.timestamp := by
  set room := msgs.filter (fun m => m.room_id == roomId) with hroom
  set sorted := room.mergeSort tsDesc with hsorteddef
  have hsorted : sorted.Pairwise (fun a b => tsDesc a b) :=
    List.sorted_mergeSort tsDesc_trans tsDesc_total room
  have hres : listMessages msgs roomId n = (sorted.take n).reverse := rfl
  refine ⟨?_, ?_, sorted.drop n, ?_, ?_⟩
  · rw [hres, List.pairwise_reverse]
    have htake : (sorted.take n).Pairwise (fun a b => tsDesc a b) :=
      hsorted.sublist (List.take_sublist n sorted)
    exact htake.imp (by simp [tsDesc, decide_eq_true_eq])
  · rw [hres]
    simp [List.length_take, hsorteddef]
  · rw [hres, List.reverse_reverse, List.take_append_drop]
    exact room.mergeSort_perm tsDesc
  · intro m hm m2 hm2
    rw [hres, List.mem_reverse] at hm2
    have hsplit := hsorted
    rw [← List.take_append_drop n sorted, List.pairwise_append] at hsplit
    have := hsplit.2.2 m2 hm2 m hm
    simpa [tsDesc, decide_eq_true_eq] using this

/-- Result of the join-room handler: HTTP status, response message, and
the `room_members` table after the request. -/
structure JoinResult where
  status : Nat
  message : String
  members : List (Nat × Nat)
  deriving DecidableEq, Repr

/-- `POST /api/rooms/:roomId/join` (src/server.js:567-595): 400 if
`user_id` is falsy; if a `(room_id, user_id)` row exists, return 200
"User is already a member" without writing; otherwise insert the
membership row and return 200. -/
def joinRoom (members : List (Nat × Nat)) (roomId userId : Nat) :
    JoinResult :=
  if userId == 0 then
    ⟨400, "User ID is required", members⟩
  else if members.any (fun p => p.1 == roomId && p.2 == userId) then
    ⟨200, "User is already a member", members⟩
  else
    ⟨200, "Successfully joined room", members ++ [(roomId, userId)]⟩

/-- The membership check of the join and send handlers succeeds exactly
when the `(roomId, userId)` pair is a row of `room_members`. -/
theorem memberCheck_iff (members : List (Nat × Nat)) (roomId userId : Nat) :
    members.any (fun p => p.1 == roomId && p.2 == userId) = true ↔
      (roomId, userId) ∈ members := by
  rw [List.any_eq_true]
  constructor
  · rintro ⟨p, hp, hpe⟩
    simp only [Bool.and_eq_true, beq_iff_eq] at hpe
    obtain ⟨h1, h2⟩ := hpe
    rwa [← h1, ← h2]
  · intro h
    exact ⟨(roomId, userId), h, by simp⟩

/-- C7: joining is idempotent — for an existing member the handler
returns 200 with the "already a member" message and writes nothing; for a
non-member it returns 200 and appends exactly the one membership row. -/
theorem joinRoom_idempotent (members : List (Nat × Nat))
    (roomId userId : Nat) (huid : userId ≠ 0) :
    ((roomId, userId) ∈ members →
      (joinRoom members roomId userId).status = 200 ∧
        (joinRoom members roomId userId).message =
          "User is already a member" ∧
        (joinRoom members roomId userId).members = members) ∧
    ((roomId, userId) ∉ members →
      (joinRoom members roomId userId).status = 200 ∧
        (joinRoom members roomId userId).members =
          members ++ [(roomId, userId)]) := by
  have hzero : (userId == 0) = false := by simp [huid]
  constructor
  · intro hmem
    have hany := (memberCheck_iff members roomId userId).mpr hmem
    simp [joinRoom, hzero, hany]
  · intro hmem
    have hany : members.any (fun p => p.1 == roomId && p.2 == userId) = false := by
      rw [← Bool.not_eq_true, memberCheck_iff]
      exact hmem
    simp [joinRoom, hzero, hany]

/-- Witness for C7 at a concrete input: the second join of the same pair
writes nothing, the first appends one row. -/
theorem joinRoom_idempotent_witness :
    ((joinRoom [(7, 3)] 7 3).status = 200 ∧
      (joinRoom [(7, 3)] 7 3).message = "User is already a member" ∧
      (joinRoom [(7, 3)] 7 3).members = [(7, 3)]) ∧
    ((joinRoom [] 7 3).status = 200 ∧
      (joinRoom [] 7 3).members = [(7, 3)]) := by
  constructor
  · exact (joinRoom_idempotent [(7, 3)] 7 3 (by decide)).1 (by decide)
  · exact (joinRoom_idempotent [] 7 3 (by decide)).2 (by decide)

/-- Result of the send-message handler: HTTP status, the `messages` table
after the request, and the returned inserted row. -/
structure SendResult where
  status : Nat
  messages : List Message
  message : Option Message
  deriving DecidableEq, Repr

/-- `POST /api/rooms/:roomId/messages` (src/server.js:536-564): 400 if
`sender_id` or `content` is falsy; 403 without insert if the sender is
not a `room_members` row of the target room; otherwise insert and return
the row.  `nextId`/`nextTs` model the store-generated id and timestamp. -/
def sendMessage (members : List (Nat × Nat)) (msgs : List Message)
    (nextId nextTs : Nat) (roomId senderId : Nat) (content : String) :
    SendResult :=
  if senderId == 0 || content == "" then
    ⟨400, msgs, none⟩
  else if !(members.any (fun p => p.1 == roomId && p.2 == senderId)) then
    ⟨403, msgs, none⟩
  else
    ⟨201, msgs ++ [⟨nextId, roomId, senderId, content, nextTs⟩],
      some ⟨nextId, roomId, senderId, content, nextTs⟩⟩

/-- C8: a send request from a non-member gets 403 and inserts nothing;
the same request issued after the sender joins the room gets 201 with the
inserted message row. -/
theorem sendMessage_requires_membership (members : List (Nat × Nat))
    (msgs : List Message) (nextId nextTs roomId senderId : Nat)
    (content : String) (hsid : senderId ≠ 0) (hc : content ≠ "") :
    ((roomId, senderId) ∉ members →
      (sendMessage members msgs nextId nextTs roomId senderId content).status
          = 403 ∧
        (sendMessage members msgs nextId nextTs roomId senderId
          content).messages = msgs ∧
        (sendMessage members msgs nextId nextTs roomId senderId
          content).message = none) ∧
    ((sendMessage (joinRoom members roomId senderId).members msgs nextId
        nextTs roomId senderId content).status = 201 ∧
      (sendMessage (joinRoom members roomId senderId).members msgs nextId
        nextTs roomId senderId content).messages =
        msgs ++ [⟨nextId, roomId, senderId, content, nextTs⟩] ∧
      (sendMessage (joinRoom members roomId senderId).members msgs nextId
        nextTs roomId senderId content).message =
        some ⟨nextId, roomId, senderId, content, nextTs⟩) := by
  have hfields : (senderId == 0 || content == "") = false := by
    simp [hsid, hc]
  constructor
  · intro hmem
    have hany : members.any (fun p => p.1 == roomId && p.2 == senderId)
        = false := by
      rw [← Bool.not_eq_true, memberCheck_iff]
      exact hmem
    simp [sendMessage, hfields, hany]
  · have hjoined : (roomId, senderId) ∈
        (joinRoom members roomId senderId).members := by
      have hzero : (senderId == 0) = false := by simp [hsid]
      by_cases hmem : members.any (fun p => p.1 == roomId && p.2 == senderId)
      · simp only [joinRoom, hzero, Bool.false_eq_true, if_false, hmem,
          if_true]
        exact (memberCheck_iff members roomId senderId).mp hmem
      · simp only [Bool.not_eq_true] at hmem
        simp [joinRoom, hzero, hmem]
    have hany := (memberCheck_iff
      (joinRoom members roomId senderId).members roomId senderId).mpr hjoined
    simp [sendMessage, hfields, hany]

/-- Witness for C8 at a concrete input: non-member rejected with 403,
member-after-join accepted with 201. -/
theorem sendMessage_requires_membership_witness :
    ((sendMessage [] [] 1 10 7 3 "oi").status = 403 ∧
      (sendMessage [] [] 1 10 7 3 "oi").messages = []) ∧
    ((sendMessage (joinRoom [] 7 3).members [] 1 10 7 3 "oi").status = 201 ∧
      (sendMessage (joinRoom [] 7 3).members [] 1 10 7 3 "oi").messages =
        [⟨1, 7, 3, "oi", 10⟩]) := by
  constructor
  · have h := (sendMessage_requires_membership [] [] 1 10 7 3 "oi"
      (by decide) (by decide)).1 (by decide)
    exact ⟨h.1, h.2.1⟩
  · have h := (sendMessage_requires_membership [] [] 1 10 7 3 "oi"
      (by decide) (by decide)).2
    exact ⟨h.1, h.2.1⟩

/-- Data statements issued inside the registration transaction. -/
inductive DbOp where
  | selectUser
  | insertUser
  deriving DecidableEq, Repr

/-- Connection-level events of a multi-statement handler run:
`pool.connect()`, `BEGIN`, a data statement, `COMMIT`, `ROLLBACK`,
`client.release()`. -/
inductive Ev where
  | connect
  | beginTx
  | query (op : DbOp)
  | commit
  | rollback
  | release
  deriving DecidableEq, Repr

/-- Result of a traced registration run. -/
structure RegisterTraceResult where
  status : Nat
  users : List User
  trace : List Ev
  deriving DecidableEq, Repr

/-- `POST /api/auth/register` (src/server.js:67-116) as a trace of
connection-level events, parametrised by an oracle saying which data
statements throw.  The missing-field 400 happens before `pool.connect()`;
inside the `try` the code runs `BEGIN`, the SELECT, and — when the
username is free — the INSERT and `COMMIT`; the `catch` runs `ROLLBACK`
and the `finally` always releases the client.  On the duplicate-username
path the handler returns from inside the `try` directly, so the trace is
exactly what the source executes there: no `COMMIT` and no `ROLLBACK`
before the release. -/
def registerTrace (users : List User) (nextId : Nat)
    (username password : String) (selectFails insertFails : Bool) :
    RegisterTraceResult :=
  if username = "" ∨ password = "" then
    ⟨400, users, []⟩
  else if selectFails then
    ⟨500, users, [.connect, .beginTx, .query .selectUser, .rollback,
      .release]⟩
  else if users.any (fun u => u.username == jsToLower username) then
    ⟨400, users, [.connect, .beginTx, .query .selectUser, .release]⟩
  else if insertFails then
    ⟨500, users, [.connect, .beginTx, .query .selectUser,
      .query .insertUser, .rollback, .release]⟩
  else
    ⟨201, users ++ [⟨nextId, jsToLower username, password⟩],
      [.connect, .beginTx, .query .selectUser, .query .insertUser,
        .commit, .release]⟩

/-- C9 (code bug): on the duplicate-username path of registration the
handler acquires a connection, issues BEGIN, runs the SELECT and then
releases the connection with the transaction still open — the trace
contains neither COMMIT nor ROLLBACK, contradicting the claimed
"every exit path either commits or rolls back" discipline (no store
statement failed: the oracle is all-false). -/
theorem registerTrace_conflict_leaves_transaction_open :
    (registerTrace [⟨1, "alice", "pw"⟩] 2 "alice" "secret"
        false false).status = 400 ∧
      (registerTrace [⟨1, "alice", "pw"⟩] 2 "alice" "secret"
          false false).trace =
        [.connect, .beginTx, .query .selectUser, .release] ∧
      Ev.commit ∉ (registerTrace [⟨1, "alice", "pw"⟩] 2 "alice" "secret"
          false false).trace ∧
      Ev.rollback ∉ (registerTrace [⟨1, "alice", "pw"⟩] 2 "alice" "secret"
          false false).trace := by
  decide

end GestaoInformacao
